import Mathlib

/-!
Verification development for the Hulimane Labour Management engine.

The JavaScript source is embedded shallowly:

* JS numbers that carry money/unit amounts are modelled as `ℚ` (the code's
  arithmetic on them is +, -, /2, and comparisons; all are exact on the
  decimal values the app stores).
* JS strings are `String`; the JS falsiness test `!s` on a string field is
  `s = ""` (absent/undefined string fields are modelled as `""`).
* Optional object fields whose *presence* (not truthiness) the code tests
  are modelled as `Option _`; a JS array value is always truthy, even `[]`,
  which is why e.g. `Subcategory.categoryIds : Option (List String)`
  distinguishes "field absent / not an array" (`none`) from "array present"
  (`some l`).
-/

/-- Result record of the validators in `src/utils/balance.js` and
`src/utils/backupRestore.js`: `{ valid: boolean, error: string | null }`. -/
structure VRes where
  valid : Bool
  error : Option String
  deriving DecidableEq

/-- Models `{ valid: true, error: null }`. -/
def VRes.ok : VRes := ⟨true, none⟩

/-- Models `{ valid: false, error: msg }`. -/
def VRes.err (msg : String) : VRes := ⟨false, some msg⟩

/-- Worker entity (`WorkerMasterScreen.addWorker` shape). -/
structure Worker where
  id : String
  name : String
  address : String
  phone : String
  openingBalance : ℚ
  locked : Bool
  deriving DecidableEq

/-- Category entity. -/
structure Category where
  id : String
  category : String
  deriving DecidableEq

/-- Subcategory entity.  `categoryIds` is `some l` when the JS field holds an
array (`Array.isArray` true), `none` otherwise; `categoryId` is the legacy
scalar field handled defensively by `GlobalStore.js` and `balance.js`. -/
structure Subcategory where
  id : String
  subcategoryName : String
  categoryIds : Option (List String)
  categoryId : Option String
  deriving DecidableEq

/-- Attendance/work entry.  Absent string fields are `""`; absent numeric
fields are `0` (both are JS-falsy exactly when the model value is the
default, which is all the code ever tests). -/
structure Entry where
  id : String
  workerId : String
  date : String
  status : String
  workType : String
  categoryId : String
  subcategoryId : String
  amount : ℚ
  workName : String
  units : ℚ
  ratePerUnit : ℚ
  narration : String
  deriving DecidableEq

/-- Payment entity. -/
structure Payment where
  id : String
  workerId : String
  date : String
  amount : ℚ
  paymentType : String
  notes : String
  deriving DecidableEq

/-- Outbox / deferred SMS message (`deferredMessages` collection). Only the
fields relevant to worker references are modelled. -/
structure DMsg where
  id : String
  workerId : String
  body : String
  status : String
  deriving DecidableEq

/-- The accumulator step of `getWorkerBalance`'s `reduce` over the filtered
entries: `P` adds `amount`, `H` adds `amount / 2`, everything else is
ignored. -/
def jsStatusWeightStep (sum : ℚ) (e : Entry) : ℚ :=
  if e.status = "P" then sum + e.amount
  else if e.status = "H" then sum + e.amount / 2
  else sum

/-- Models `getWorkerBalance(workerId, { workers, entries, payments })` from
`src/utils/balance.js` lines 19-44.  `workers = none` models an absent
`workers` collection (`!workers`), and `workerId = ""` a falsy worker id. -/
def getWorkerBalance (workerId : String) (workers : Option (List Worker))
    (entries : Option (List Entry)) (payments : Option (List Payment)) : ℚ :=
  match workers with
  | none => 0
  | some ws =>
    if workerId = "" then 0
    else
      let openingBalance : ℚ :=
        match ws.find? (fun w => w.id == workerId) with
        | some w => w.openingBalance
        | none => 0
      let sumEntries :=
        ((entries.getD []).filter (fun e => e.workerId == workerId)).foldl
          jsStatusWeightStep 0
      let sumPayments :=
        ((payments.getD []).filter (fun p => p.workerId == workerId)).foldl
          (fun sum p => sum + p.amount) 0
      openingBalance + sumEntries - sumPayments

/-- Spec-side status multiplier (`weighted` in §4.3 of the spec):
Present ×1, Half ×0.5, anything else ×0. -/
def specWeighted (e : Entry) : ℚ :=
  if e.status = "P" then e.amount
  else if e.status = "H" then e.amount / 2
  else 0

/-- Spec-side balance formula (§4.3):
`openingBalance + Σ weighted(entry) − Σ payment.amount` over the records
whose `workerId` matches. -/
def specWorkerBalance (w : Worker) (workerId : String)
    (es : List Entry) (ps : List Payment) : ℚ :=
  w.openingBalance
    + ((es.filter (fun e => e.workerId == workerId)).map specWeighted).sum
    - ((ps.filter (fun p => p.workerId == workerId)).map Payment.amount).sum

/-- The slice of the global state that `validateEntry(entry, state)` reads:
`state.entries` (behind optional chaining) and `state.subcategories`
(behind a truthiness guard). -/
structure ValState where
  entries : Option (List Entry)
  subcategories : Option (List Subcategory)
  deriving DecidableEq

/-- Models `(sub.categoryIds && sub.categoryIds.includes(cid)) ||
(sub.categoryId && sub.categoryId === cid)` from `balance.js` line 106. -/
def subBelongs (sub : Subcategory) (cid : String) : Bool :=
  (match sub.categoryIds with
   | some ids => ids.contains cid
   | none => false)
  ||
  (match sub.categoryId with
   | some c => c != "" && c == cid
   | none => false)

/-- Models `balance.js` lines 90-129: the non-absent checks (Work A block, Work B
block, then the amount check), after the duplicate-date check. -/
def validateEntryRest (entry : Entry) (state : ValState) : VRes :=
  if entry.status ≠ "A" then
    -- Work A validation (default when workType is absent)
    let workAErr : Option String :=
      if entry.workType = "A" ∨ entry.workType = "" then
        if entry.categoryId = "" then some "Category is required for Work A entries"
        else if entry.subcategoryId = "" then some "Subcategory is required for Work A entries"
        else
          match state.subcategories with
          | some subs =>
            match subs.find? (fun s => s.id == entry.subcategoryId) with
            | none => some "Selected subcategory not found"
            | some sub =>
              if subBelongs sub entry.categoryId then none
              else some "Subcategory is not associated with selected category"
          | none => none
      else none
    match workAErr with
    | some m => VRes.err m
    | none =>
      -- Work B validation
      let workBErr : Option String :=
        if entry.workType = "B" then
          if entry.workName.trim = "" then some "Work name is required for Work B entries"
          else if entry.units ≤ 0 then some "Valid units completed is required for Work B entries"
          else if entry.ratePerUnit ≤ 0 then some "Valid rate per unit is required for Work B entries"
          else none
        else none
      match workBErr with
      | some m => VRes.err m
      | none =>
        if entry.amount ≤ 0 then VRes.err "Valid amount is required for non-absent entries"
        else VRes.ok
  else VRes.ok

/-- Models `balance.js` lines 81-88: the duplicate-attendance check
(`state.entries?.find(...)` and the `existingEntry.id !== entry.id` guard),
followed by the rest of the validation. -/
def validateEntryTail (entry : Entry) (state : ValState) : VRes :=
  match (state.entries.getD []).find?
      (fun e => e.workerId == entry.workerId && e.date == entry.date) with
  | some existingEntry =>
    if existingEntry.id != entry.id then
      VRes.err "Attendance already recorded for this worker and date"
    else validateEntryRest entry state
  | none => validateEntryRest entry state

/-- Models `validateEntry(entry, state)` from `src/utils/balance.js` lines 68-132. -/
def validateEntry (entry : Entry) (state : ValState) : VRes :=
  if entry.workerId = "" then VRes.err "Worker is required"
  else if entry.date = "" then VRes.err "Date is required"
  else if entry.status ∉ (["P", "A", "H"] : List String) then
    VRes.err "Invalid attendance status"
  else validateEntryTail entry state

/-- The error messages that `validateEntryRest` can produce (used to show
the later checks never shadow an earlier check's message). -/
def restMsgList : List String :=
  ["Category is required for Work A entries",
   "Subcategory is required for Work A entries",
   "Selected subcategory not found",
   "Subcategory is not associated with selected category",
   "Work name is required for Work B entries",
   "Valid units completed is required for Work B entries",
   "Valid rate per unit is required for Work B entries",
   "Valid amount is required for non-absent entries"]

/-- Ledger transaction record built by `ledgerTransactions` in
`LedgerScreen` (display-only fields — category/subcategory names, payment
type, narration — are omitted; they do not feed the running balance). -/
structure LTrans where
  isEntry : Bool
  date : String
  attendance : String
  amount : ℚ
  balanceAfter : ℚ
  deriving DecidableEq

/-- An entry pushed onto the transaction list (`type: 'entry'`,
`amount: Number(entry.amount || 0)`); `balanceAfter` is assigned later by
the running-balance pass and starts at `0`. -/
def entryTrans (e : Entry) : LTrans :=
  ⟨true, e.date, e.status, e.amount, 0⟩

/-- A payment pushed onto the transaction list (`type: 'payment'`,
`amount: -Number(payment.amount || 0)` — negative for payments). -/
def payTrans (p : Payment) : LTrans :=
  ⟨false, p.date, "-", -p.amount, 0⟩

/-- One step of the running-balance pass of `LedgerScreen`: entries add
`amount` for `P`, `amount / 2` for `H`, nothing otherwise; payments add
their (already negated) `amount`. -/
def transDelta (t : LTrans) : ℚ :=
  if t.isEntry then
    if t.attendance = "P" then t.amount
    else if t.attendance = "H" then t.amount / 2
    else 0
  else t.amount

/-- The `transactions.forEach` running-balance pass: thread the balance
through the list, stamping `balanceAfter` on each record. -/
def annotateBalance (bal : ℚ) : List LTrans → List LTrans
  | [] => []
  | t :: ts =>
    let b := bal + transDelta t
    { t with balanceAfter := b } :: annotateBalance b ts

/-- Models `balanceAfter` of the last record, if any. -/
def lastBalanceAfter (l : List LTrans) : Option ℚ :=
  l.getLast?.map LTrans.balanceAfter

/-- Models `ledgerTransactions` from `LedgerScreen` (src/unnamed/part_000 lines
47-122): bail out to `[]` when the worker is not found, merge the worker's
entries (first) and payments (second), sort ascending by date, then stamp a
running balance starting from `openingBalance`.  The JS sorts by
`new Date(a.date) - new Date(b.date)`; the numeric date key is abstracted
as a parameter `k`, and `List.insertionSort` models the (stable) JS sort. -/
def ledgerTransactions (k : String → ℤ) (workerId : String)
    (ws : List Worker) (es : List Entry) (ps : List Payment) : List LTrans :=
  match ws.find? (fun w => w.id == workerId) with
  | none => []
  | some worker =>
    let transactions :=
      (es.filter (fun e => e.workerId == workerId)).map entryTrans
        ++ (ps.filter (fun p => p.workerId == workerId)).map payTrans
    let sorted := transactions.insertionSort (fun a b => k a.date ≤ k b.date)
    annotateBalance worker.openingBalance sorted

/-- The global store state held by `GlobalStore.js`'s reducer
(`openingBalances` is modelled as an association list). -/
structure StoreState where
  workers : List Worker
  categories : List Category
  subcategories : List Subcategory
  entries : List Entry
  payments : List Payment
  deferredMessages : List DMsg
  openingBalances : List (String × ℚ)
  deriving DecidableEq

/-- The reducer actions of `GlobalStore.js` that target the entity
collections.  (`SET_ALL` / `REFRESH_DATA` merge provider-level payloads and
are not needed by any claim.) -/
inductive StoreAction where
  | addWorker (w : Worker)
  | updateWorker (w : Worker)
  | deleteWorker (id : String)
  | addCategory (c : Category)
  | updateCategory (c : Category)
  | deleteCategory (id : String)
  | addSubcategory (s : Subcategory)
  | updateSubcategory (s : Subcategory)
  | deleteSubcategory (id : String)
  | addEntry (e : Entry)
  | updateEntry (e : Entry)
  | deleteEntry (id : String)
  | addPayment (p : Payment)
  | updatePayment (p : Payment)
  | deletePayment (id : String)
  | addDeferredMessage (m : DMsg)
  | updateDeferredMessage (m : DMsg)
  | deleteDeferredMessage (id : String)
  | setOpeningBalance (kv : List (String × ℚ))
  deriving DecidableEq

/-- The `DELETE_CATEGORY` per-subcategory update (`GlobalStore.js` lines
32-40): an array-valued `categoryIds` gets the deleted id filtered out; a
matching truthy legacy scalar `categoryId` is nulled and `categoryIds` set
to `[]`; anything else is untouched. -/
def deleteCategorySubUpdate (deletedId : String) (s : Subcategory) : Subcategory :=
  match s.categoryIds with
  | some ids => { s with categoryIds := some (ids.filter (fun i => i != deletedId)) }
  | none =>
    match s.categoryId with
    | some c =>
      if c != "" && c == deletedId then
        { s with categoryId := none, categoryIds := some [] }
      else s
    | none => s

/-- JS truthiness of the legacy scalar `categoryId` field. -/
def legacyTruthy : Option String → Bool
  | some c => c != ""
  | none => false

/-- The `DELETE_CATEGORY` orphan filter (`GlobalStore.js` lines 41-45):
keep a subcategory iff its `categoryIds` array is non-empty or its legacy
`categoryId` is truthy. -/
def deleteCategorySubKeep (s : Subcategory) : Bool :=
  (match s.categoryIds with
   | some ids => ids.length > 0
   | none => false)
  || legacyTruthy s.categoryId

/-- The reducer of `GlobalStore.js` lines 18-63 over the entity actions. -/
def reducer (state : StoreState) (action : StoreAction) : StoreState :=
  match action with
  | .addWorker w => { state with workers := state.workers ++ [w] }
  | .updateWorker w =>
    { state with workers := state.workers.map (fun x => if x.id == w.id then w else x) }
  | .deleteWorker i =>
    { state with workers := state.workers.filter (fun x => x.id != i) }
  | .addCategory c => { state with categories := state.categories ++ [c] }
  | .updateCategory c =>
    { state with categories := state.categories.map (fun x => if x.id == c.id then c else x) }
  | .deleteCategory deletedId =>
    let nextCategories := state.categories.filter (fun c => c.id != deletedId)
    let nextSubcategories :=
      (state.subcategories.map (deleteCategorySubUpdate deletedId)).filter
        deleteCategorySubKeep
    { state with categories := nextCategories, subcategories := nextSubcategories }
  | .addSubcategory s => { state with subcategories := state.subcategories ++ [s] }
  | .updateSubcategory s =>
    { state with subcategories := state.subcategories.map (fun x => if x.id == s.id then s else x) }
  | .deleteSubcategory i =>
    { state with subcategories := state.subcategories.filter (fun x => x.id != i) }
  | .addEntry e => { state with entries := state.entries ++ [e] }
  | .updateEntry e =>
    { state with entries := state.entries.map (fun x => if x.id == e.id then e else x) }
  | .deleteEntry i =>
    { state with entries := state.entries.filter (fun x => x.id != i) }
  | .addPayment p => { state with payments := state.payments ++ [p] }
  | .updatePayment p =>
    { state with payments := state.payments.map (fun x => if x.id == p.id then p else x) }
  | .deletePayment i =>
    { state with payments := state.payments.filter (fun x => x.id != i) }
  | .addDeferredMessage m =>
    { state with deferredMessages := state.deferredMessages ++ [m] }
  | .updateDeferredMessage m =>
    { state with deferredMessages :=
        state.deferredMessages.map (fun x => if x.id == m.id then m else x) }
  | .deleteDeferredMessage i =>
    { state with deferredMessages := state.deferredMessages.filter (fun x => x.id != i) }
  | .setOpeningBalance kv =>
    { state with openingBalances := state.openingBalances ++ kv }

/-- A JSON-ish JavaScript value, used where the source manipulates raw
parsed documents (backup validation, restore, the migration gate). -/
inductive JSVal where
  | undefVal
  | null
  | bool (b : Bool)
  | num (q : ℚ)
  | str (s : String)
  | arr (l : List JSVal)
  | obj (fields : List (String × JSVal))

/-- JS truthiness of a value (`NaN` does not arise in the modelled paths;
arrays and objects are always truthy). -/
def JSVal.truthy : JSVal → Bool
  | .undefVal => false
  | .null => false
  | .bool b => b
  | .num q => q != 0
  | .str s => s != ""
  | .arr _ => true
  | .obj _ => true

/-- Models `typeof v === 'object'` (true for objects, arrays and `null`). -/
def JSVal.typeofObject : JSVal → Bool
  | .null => true
  | .arr _ => true
  | .obj _ => true
  | _ => false

/-- Property access `v[key]`: first binding wins, `undefined` when the
value is not an object or lacks the key. -/
def JSVal.getField : JSVal → String → JSVal
  | .obj fields, key =>
    match fields.find? (fun kv => kv.1 == key) with
    | some kv => kv.2
    | none => .undefVal
  | _, _ => .undefVal

/-- Models `Array.isArray(v)`. -/
def JSVal.isArr : JSVal → Bool
  | .arr _ => true
  | _ => false

/-- Models `a || b`. -/
def jsOr (a b : JSVal) : JSVal := if a.truthy then a else b

/-- Models `a ?? b` (nullish coalescing). -/
def jsNullish (a b : JSVal) : JSVal :=
  match a with
  | .undefVal => b
  | .null => b
  | _ => a

/-- Models `{...v, key: x}`: spread the (object) value and override/append one
field.  Spreading a non-object contributes no fields. -/
def JSVal.setField (v : JSVal) (key : String) (x : JSVal) : JSVal :=
  match v with
  | .obj fields =>
    if fields.any (fun kv => kv.1 == key) then
      .obj (fields.map (fun kv => if kv.1 == key then (kv.1, x) else kv))
    else .obj (fields ++ [(key, x)])
  | _ => .obj [(key, x)]

/-- The required collection names checked by `validateBackupData`. -/
def requiredFields : List String :=
  ["workers", "categories", "subcategories", "entries", "payments"]

/-- The `for (const field of requiredFields)` loop of `validateBackupData`:
first non-array collection (in order) produces the error. -/
def checkRequiredFields (appData : JSVal) : List String → VRes
  | [] => VRes.ok
  | f :: rest =>
    if (appData.getField f).isArr then checkRequiredFields appData rest
    else VRes.err ("Invalid or missing " ++ f ++ " data")

/-- Models `validateBackupData(backupData)` from `src/utils/backupRestore.js`
lines 307-329. -/
def validateBackupData (backupData : JSVal) : VRes :=
  if ¬ backupData.truthy ∨ ¬ backupData.typeofObject then
    VRes.err "Invalid backup file format"
  else if ¬ (backupData.getField "version").truthy then
    VRes.err "Backup version not found"
  else if ¬ (backupData.getField "appData").truthy then
    VRes.err "App data not found in backup"
  else checkRequiredFields (backupData.getField "appData") requiredFields

/-- Claim-side shape predicate, literally from the claim's words: an object
with a `version` field present, an `appData` field present, and each of the
five collections present in `appData` as a list (possibly empty). -/
def claimBackupShape (backupData : JSVal) : Bool :=
  (match backupData with
   | .obj fields =>
     fields.any (fun kv => kv.1 == "version")
       && fields.any (fun kv => kv.1 == "appData")
   | _ => false)
  && requiredFields.all (fun f =>
       ((backupData.getField "appData").getField f).isArr)

/-- Amended (code-accurate) acceptance condition of `validateBackupData`:
a truthy value of object type whose `version` and `appData` fields are
truthy and whose five collections are arrays. -/
def codeBackupShape (backupData : JSVal) : Bool :=
  backupData.truthy && backupData.typeofObject
    && (backupData.getField "version").truthy
    && (backupData.getField "appData").truthy
    && requiredFields.all (fun f =>
         ((backupData.getField "appData").getField f).isArr)

/-- The state written wholesale by `restoreBackup` (lines 357-367):
the five collections plus `openingBalances` and `deferredMessages` with
`|| []` / `|| {}` defaults, re-stamped `isInitialized: true`,
`schemaVersion: 1`. -/
structure RestoredState where
  workers : JSVal
  categories : JSVal
  subcategories : JSVal
  entries : JSVal
  payments : JSVal
  openingBalances : JSVal
  deferredMessages : JSVal

/-- Build the `restoredState` object of `restoreBackup` from the (already
validated) `appData` document. -/
def buildRestoredState (backupData : JSVal) : RestoredState :=
  ⟨jsOr (backupData.getField "workers") (.arr []),
   jsOr (backupData.getField "categories") (.arr []),
   jsOr (backupData.getField "subcategories") (.arr []),
   jsOr (backupData.getField "entries") (.arr []),
   jsOr (backupData.getField "payments") (.arr []),
   jsOr (backupData.getField "openingBalances") (.obj []),
   jsOr (backupData.getField "deferredMessages") (.arr [])⟩

/-- A value held by the external key-value store: either a raw persisted
blob or a serialized restored state. -/
inductive Blob where
  | raw (s : String)
  | rst (r : RestoredState)

/-- The external key-value store, newest binding first (`storageSet`
prepends, `storageGet` takes the first binding, so a set shadows older
values — AsyncStorage overwrite semantics). -/
def Storage := List (String × Blob)

def storageGet (st : Storage) (key : String) : Option Blob :=
  match (st : List (String × Blob)).find? (fun kv => kv.1 == key) with
  | some kv => some kv.2
  | none => none

def storageSet (st : Storage) (key : String) (v : Blob) : Storage :=
  ((key, v) :: st : List (String × Blob))

/-- Observable steps of a restore run, in execution order. -/
inductive REvent where
  | snapshotWrite (key : String)
  | dispatchSetAll
  | replaceWrite
  deriving DecidableEq

/-- Models `restoreBackup(backupData, dispatch)` from `src/utils/backupRestore.js`
lines 337-389 as a state machine over the external store.  `failSnapshot`
models the safety-snapshot `setItem` throwing (the `catch` then returns
`{success: false}` before any replacement); `ts` is the formatted
timestamp.  Returns (success flag, resulting storage, event trace). -/
def restoreBackup (failSnapshot : Bool) (ts : String) (backupData : JSVal)
    (store : Storage) : Bool × Storage × List REvent :=
  match storageGet store "globalStore" with
  | some currentState =>
    if failSnapshot then (false, store, [])
    else
      let backupKey := "globalStore_pre_restore_" ++ ts
      let store1 := storageSet store backupKey currentState
      let restoredState := buildRestoredState backupData
      let store2 := storageSet store1 "globalStore" (.rst restoredState)
      (true, store2, [.snapshotWrite backupKey, .dispatchSetAll, .replaceWrite])
  | none =>
    let restoredState := buildRestoredState backupData
    let store2 := storageSet store "globalStore" (.rst restoredState)
    (true, store2, [.dispatchSetAll, .replaceWrite])

/-- The import-then-restore pipeline of `BackupRestoreScreen`
(src/unnamed/part_004): `importBackupFromText` runs `validateBackupData`
and returns the failure without touching anything; only a successfully
validated document reaches `restoreBackup` with its `appData`. -/
def importAndRestore (failSnapshot : Bool) (ts : String) (document : JSVal)
    (store : Storage) : Bool × Storage × List REvent :=
  if (validateBackupData document).valid then
    restoreBackup failSnapshot ts (document.getField "appData") store
  else (false, store, [])

/-- Models `Number(v)` under the `Number.isFinite` guard of `toNumber` in the
migration gate (`GlobalStore.js` lines 93-96): numbers pass through,
booleans/null coerce, `undefined` (NaN) and the remaining shapes collapse
to `0`.  Numeric-string coercion is not modelled — the app only ever
persists numbers in these fields. -/
def toNumberJS : JSVal → ℚ
  | .num q => q
  | .bool b => if b then 1 else 0
  | .null => 0
  | _ => 0

/-- Models `v === 's'` for a string literal. -/
def isStrVal (v : JSVal) (t : String) : Bool :=
  match v with
  | .str s => s == t
  | _ => false

/-- The `Object.keys(x).reduce(...)` tail of each normalizer: every field
whose key is not in the exclusion list, in original order. -/
def objRestFields (v : JSVal) (excl : List String) : List (String × JSVal) :=
  match v with
  | .obj fields => fields.filter (fun kv => ¬ excl.contains kv.1)
  | _ => []

/-- The elements of an array value (`[]` otherwise). -/
def getArrList : JSVal → List JSVal
  | .arr l => l
  | _ => []

/-- Models `normalizeWorker` (`GlobalStore.js` lines 98-104). -/
def normalizeWorker (w : JSVal) : JSVal :=
  .obj ([("id", w.getField "id"),
         ("name", jsOr (w.getField "name") (jsOr (w.getField "fullName") (.str "Unknown"))),
         ("openingBalance",
          .num (toNumberJS (jsNullish (w.getField "openingBalance")
            (jsNullish (w.getField "opening_balance") (.num 0)))))]
    ++ objRestFields w ["id", "name", "openingBalance", "opening_balance", "fullName"])

/-- Models `normalizeEntry` (`GlobalStore.js` lines 106-117); `nowStr` is
`Date.now().toString()`. -/
def normalizeEntry (nowStr : String) (e : JSVal) : JSVal :=
  .obj ([("id", jsOr (e.getField "id") (.str nowStr)),
         ("workerId", jsOr (e.getField "workerId") (jsOr (e.getField "worker_id") .null)),
         ("date", jsOr (e.getField "date") (jsOr (e.getField "day") .null)),
         ("status",
          if isStrVal (e.getField "status") "P" || isStrVal (e.getField "status") "H"
              || isStrVal (e.getField "status") "A" then e.getField "status"
          else if isStrVal (e.getField "status") "Half" then .str "H"
          else if isStrVal (e.getField "status") "Present" then .str "P"
          else .str "A"),
         ("categoryId", jsNullish (e.getField "categoryId")
            (jsNullish (e.getField "category_id") .null)),
         ("subcategoryId", jsNullish (e.getField "subcategoryId")
            (jsNullish (e.getField "subcategory_id") .null)),
         ("amount", .num (toNumberJS (jsNullish (e.getField "amount")
            (jsNullish (e.getField "amt") (.num 0))))),
         ("narration", jsNullish (e.getField "narration")
            (jsNullish (e.getField "notes") (.str "")))]
    ++ objRestFields e ["id", "workerId", "worker_id", "date", "day", "status",
         "categoryId", "category_id", "subcategoryId", "subcategory_id",
         "amount", "amt", "narration", "notes"])

/-- Models `normalizePayment` (`GlobalStore.js` lines 119-127). -/
def normalizePayment (nowStr : String) (p : JSVal) : JSVal :=
  .obj ([("id", jsOr (p.getField "id") (.str nowStr)),
         ("workerId", jsOr (p.getField "workerId") (jsOr (p.getField "worker_id") .null)),
         ("date", jsOr (p.getField "date") (jsOr (p.getField "day") .null)),
         ("amount", .num (toNumberJS (jsNullish (p.getField "amount")
            (jsNullish (p.getField "amt") (.num 0))))),
         ("paymentType", jsOr (p.getField "paymentType")
            (jsOr (p.getField "type") (.str "Cash"))),
         ("notes", jsNullish (p.getField "notes")
            (jsNullish (p.getField "narration") (.str "")))]
    ++ objRestFields p ["id", "workerId", "worker_id", "date", "day", "amount",
         "amt", "paymentType", "type", "notes", "narration"])

/-- Models `normalizeSubcategory` (`GlobalStore.js` lines 129-135). -/
def normalizeSubcategory (s : JSVal) : JSVal :=
  .obj ([("id", s.getField "id"),
         ("subcategoryName", jsOr (s.getField "subcategoryName")
            (jsOr (s.getField "subcategory") (.str ""))),
         ("categoryIds",
          if (s.getField "categoryIds").isArr then s.getField "categoryIds"
          else if (s.getField "categoryId").truthy then .arr [s.getField "categoryId"]
          else .arr [])]
    ++ objRestFields s ["id", "subcategoryName", "subcategory", "categoryIds", "categoryId"])

/-- The normalized store built by the migration branch
(`GlobalStore.js` lines 138-147). -/
def normalizeStore (nowStr : String) (parsedData : JSVal) : JSVal :=
  .obj [("workers",
         if (parsedData.getField "workers").isArr then
           .arr ((getArrList (parsedData.getField "workers")).map normalizeWorker)
         else .arr []),
        ("categories",
         if (parsedData.getField "categories").isArr then
           parsedData.getField "categories"
         else .arr []),
        ("subcategories",
         if (parsedData.getField "subcategories").isArr then
           .arr ((getArrList (parsedData.getField "subcategories")).map normalizeSubcategory)
         else .arr []),
        ("entries",
         if (parsedData.getField "entries").isArr then
           .arr ((getArrList (parsedData.getField "entries")).map (normalizeEntry nowStr))
         else .arr []),
        ("payments",
         if (parsedData.getField "payments").isArr then
           .arr ((getArrList (parsedData.getField "payments")).map (normalizePayment nowStr))
         else .arr []),
        ("openingBalances", jsOr (parsedData.getField "openingBalances") (.obj [])),
        ("schemaVersion", .num 1),
        ("isInitialized", .bool true)]

/-- Outcome of one run of the Schema Migration Gate: the payload dispatched
into the live store, the blob written back under the primary key (`none` =
no write), and whether a timestamped backup write of the raw blob was
performed. -/
structure GateResult where
  loaded : JSVal
  stored : Option JSVal
  backupWritten : Bool

/-- The load effect of `GlobalStoreProvider` (`GlobalStore.js` lines
69-170) for a present persisted blob `parsedData`.  The version check
(`parsedData.schemaVersion || 0 >= 1`) is the first step; the legacy
branch writes a timestamped backup, normalizes, and persists the result
(`writeFails` models the persist `setItem` throwing, in which case the raw
data is dispatched instead and nothing is stored). -/
def migrationGate (nowStr : String) (writeFails : Bool) (parsedData : JSVal) :
    GateResult :=
  let currentVersion := toNumberJS (jsOr (parsedData.getField "schemaVersion") (.num 0))
  if 1 ≤ currentVersion then
    ⟨parsedData.setField "isInitialized" (.bool true), none, false⟩
  else
    let normalized := normalizeStore nowStr parsedData
    if writeFails then
      ⟨parsedData.setField "isInitialized" (.bool true), none, true⟩
    else
      ⟨normalized, some normalized, true⟩

/-! ### Helper lemmas -/

theorem foldl_jsStatusWeightStep (l : List Entry) :
    ∀ b : ℚ, l.foldl jsStatusWeightStep b = b + (l.map specWeighted).sum := by
  induction l with
  | nil => intro b; simp
  | cons e t ih =>
    intro b
    rw [List.foldl_cons, ih, List.map_cons, List.sum_cons]
    unfold jsStatusWeightStep specWeighted
    split_ifs <;> ring

theorem foldl_paymentSum (l : List Payment) :
    ∀ b : ℚ, l.foldl (fun sum p => sum + p.amount) b
      = b + (l.map Payment.amount).sum := by
  induction l with
  | nil => intro b; simp
  | cons p t ih =>
    intro b
    rw [List.foldl_cons, ih, List.map_cons, List.sum_cons]
    ring

theorem annotateBalance_eq_nil_iff (b : ℚ) (l : List LTrans) :
    annotateBalance b l = [] ↔ l = [] := by
  cases l <;> simp [annotateBalance]

theorem lastBalanceAfter_cons_of_ne_nil (x : LTrans) (l : List LTrans)
    (h : l ≠ []) : lastBalanceAfter (x :: l) = lastBalanceAfter l := by
  cases l with
  | nil => exact absurd rfl h
  | cons y t => simp [lastBalanceAfter, List.getLast?_cons_cons]

theorem lastBalanceAfter_annotate (ts : List LTrans) :
    ∀ b : ℚ, ts ≠ [] →
      lastBalanceAfter (annotateBalance b ts)
        = some (b + (ts.map transDelta).sum) := by
  induction ts with
  | nil => intro b h; exact absurd rfl h
  | cons t rest ih =>
    intro b _
    cases hrest : rest with
    | nil =>
      subst hrest
      simp [annotateBalance, lastBalanceAfter]
    | cons r2 rrest =>
      subst hrest
      have hne : r2 :: rrest ≠ [] := List.cons_ne_nil _ _
      have h1 : annotateBalance (b + transDelta t) (r2 :: rrest) ≠ [] := by
        intro hcontra
        exact hne ((annotateBalance_eq_nil_iff _ _).mp hcontra)
      calc lastBalanceAfter (annotateBalance b (t :: r2 :: rrest))
          = lastBalanceAfter ({ t with balanceAfter := b + transDelta t }
              :: annotateBalance (b + transDelta t) (r2 :: rrest)) := rfl
        _ = lastBalanceAfter (annotateBalance (b + transDelta t) (r2 :: rrest)) :=
            lastBalanceAfter_cons_of_ne_nil _ _ h1
        _ = some ((b + transDelta t) + ((r2 :: rrest).map transDelta).sum) :=
            ih _ hne
        _ = some (b + ((t :: r2 :: rrest).map transDelta).sum) := by
            simp only [List.map_cons, List.sum_cons]
            exact congrArg some (by ring)

theorem sum_map_neg_amount (l : List Payment) :
    (l.map (fun p => -p.amount)).sum = -((l.map Payment.amount).sum) := by
  induction l with
  | nil => simp
  | cons p t ih => simp [ih]; ring

/-! ### Claim theorems -/

/-- C1 (amended): for every store state and every worker found under a
non-empty id, `getWorkerBalance` returns `openingBalance` plus the
status-weighted entry sum (Present ×1, Half ×0.5, anything else ×0) minus
the payment sum, over the records whose `workerId` matches.  (The
amendment: for a falsy — empty — worker id the function short-circuits to
`0` instead.) -/
theorem getWorkerBalance_eq_spec (workerId : String) (ws : List Worker)
    (es : List Entry) (ps : List Payment) (w : Worker)
    (hid : workerId ≠ "")
    (hfind : ws.find? (fun x => x.id == workerId) = some w) :
    getWorkerBalance workerId (some ws) (some es) (some ps)
      = specWorkerBalance w workerId es ps := by
  unfold getWorkerBalance specWorkerBalance
  simp [hid, hfind, foldl_jsStatusWeightStep, foldl_paymentSum]

/-- C1 witness: the spec's worked example — opening 1000, a Present entry
of 500, a Half entry of 400 (contributing 200), a payment of 300 — yields
1400. -/
theorem getWorkerBalance_eq_spec_witness :
    getWorkerBalance "w1"
      (some [⟨"w1", "Ravi", "", "", 1000, true⟩])
      (some [⟨"e1", "w1", "2025-01-01", "P", "A", "c1", "s1", 500, "", 0, 0, ""⟩,
             ⟨"e2", "w1", "2025-01-02", "H", "A", "c1", "s1", 400, "", 0, 0, ""⟩])
      (some [⟨"p1", "w1", "2025-01-03", 300, "Cash", ""⟩]) = 1400 := by
  rw [getWorkerBalance_eq_spec "w1"
    [⟨"w1", "Ravi", "", "", 1000, true⟩]
    [⟨"e1", "w1", "2025-01-01", "P", "A", "c1", "s1", 500, "", 0, 0, ""⟩,
     ⟨"e2", "w1", "2025-01-02", "H", "A", "c1", "s1", 400, "", 0, 0, ""⟩]
    [⟨"p1", "w1", "2025-01-03", 300, "Cash", ""⟩]
    ⟨"w1", "Ravi", "", "", 1000, true⟩ (by decide) (by rfl)]
  simp only [specWorkerBalance, specWeighted, List.filter, List.map, List.sum,
    List.foldr]
  norm_num
  rw [if_neg (by decide : ¬(("H" : String) = "P"))]
  norm_num

/-- C1 counterexample to the claim as stated: a worker whose (opaque) id is
the empty string is in the store with opening balance 1000, yet
`getWorkerBalance` returns 0, not the claimed
`openingBalance + Σ weighted − Σ payments = 1000`, because of the
`!workerId` truthiness guard. -/
theorem getWorkerBalance_claim_cex :
    ([(⟨"", "Ghost", "", "", 1000, true⟩ : Worker)].find? (fun x => x.id == "")
        = some ⟨"", "Ghost", "", "", 1000, true⟩)
    ∧ getWorkerBalance "" (some [⟨"", "Ghost", "", "", 1000, true⟩])
        (some []) (some []) = 0
    ∧ specWorkerBalance ⟨"", "Ghost", "", "", 1000, true⟩ "" [] [] = 1000 := by
  refine ⟨rfl, rfl, ?_⟩
  simp [specWorkerBalance]

/-- Unfolding lemma: no worker found means an empty ledger. -/
theorem ledger_find_none (k : String → ℤ) (workerId : String)
    (ws : List Worker) (es : List Entry) (ps : List Payment)
    (hfind : ws.find? (fun x => x.id == workerId) = none) :
    ledgerTransactions k workerId ws es ps = [] := by
  unfold ledgerTransactions
  rw [hfind]

/-- Unfolding lemma: with a found worker the ledger is the annotated sorted
merge. -/
theorem ledger_find_some (k : String → ℤ) (workerId : String)
    (ws : List Worker) (es : List Entry) (ps : List Payment) (w : Worker)
    (hfind : ws.find? (fun x => x.id == workerId) = some w) :
    ledgerTransactions k workerId ws es ps
      = annotateBalance w.openingBalance
          (List.insertionSort (fun a b => k a.date ≤ k b.date)
            ((es.filter (fun e => e.workerId == workerId)).map entryTrans
              ++ (ps.filter (fun p => p.workerId == workerId)).map payTrans)) := by
  unfold ledgerTransactions
  rw [hfind]

/-- C2 (amended): for a non-empty worker id, whenever the merged ledger of
`LedgerScreen` is non-empty, the `balanceAfter` of its last chronological
record equals `getWorkerBalance` computed directly — for every date-sort
key `k` (the sum is invariant under the sort's permutation).  (The
amendment: for a worker stored under a falsy — empty — id the two sides
disagree, since `getWorkerBalance` short-circuits to `0`.) -/
theorem ledger_last_eq_getWorkerBalance (k : String → ℤ) (workerId : String)
    (ws : List Worker) (es : List Entry) (ps : List Payment)
    (hid : workerId ≠ "")
    (hne : ledgerTransactions k workerId ws es ps ≠ []) :
    lastBalanceAfter (ledgerTransactions k workerId ws es ps)
      = some (getWorkerBalance workerId (some ws) (some es) (some ps)) := by
  cases hfind : ws.find? (fun x => x.id == workerId) with
  | none => exact absurd (ledger_find_none k workerId ws es ps hfind) hne
  | some w =>
    rw [ledger_find_some k workerId ws es ps w hfind] at hne ⊢
    have hsortedne :
        List.insertionSort (fun a b => k a.date ≤ k b.date)
          ((es.filter (fun e => e.workerId == workerId)).map entryTrans
            ++ (ps.filter (fun p => p.workerId == workerId)).map payTrans) ≠ [] := by
      intro h0
      apply hne
      rw [h0]
      rfl
    rw [lastBalanceAfter_annotate _ _ hsortedne]
    have hperm :=
      List.perm_insertionSort (fun a b : LTrans => k a.date ≤ k b.date)
        ((es.filter (fun e => e.workerId == workerId)).map entryTrans
          ++ (ps.filter (fun p => p.workerId == workerId)).map payTrans)
    rw [(hperm.map transDelta).sum_eq]
    have h1 : transDelta ∘ entryTrans = specWeighted := funext (fun e => rfl)
    have h2 : transDelta ∘ payTrans = (fun p => -p.amount) := funext (fun p => rfl)
    rw [List.map_append, List.sum_append, List.map_map, List.map_map, h1, h2,
      sum_map_neg_amount]
    unfold getWorkerBalance
    simp only [hid, hfind, foldl_jsStatusWeightStep, foldl_paymentSum,
      Option.getD_some, if_neg, ite_false, zero_add]
    exact congrArg some (by ring)

/-- C2 witness: on a concrete store (opening 1000, one Present entry of
500, one payment of 300) the last ledger record's `balanceAfter` is the
directly computed balance. -/
theorem ledger_last_eq_getWorkerBalance_witness :
    lastBalanceAfter (ledgerTransactions (fun s => (s.length : ℤ)) "w1"
        [⟨"w1", "Ravi", "", "", 1000, true⟩]
        [⟨"e1", "w1", "2025-01-01", "P", "A", "c1", "s1", 500, "", 0, 0, ""⟩]
        [⟨"p1", "w1", "2025-01-03", 300, "Cash", ""⟩])
      = some (getWorkerBalance "w1"
        (some [⟨"w1", "Ravi", "", "", 1000, true⟩])
        (some [⟨"e1", "w1", "2025-01-01", "P", "A", "c1", "s1", 500, "", 0, 0, ""⟩])
        (some [⟨"p1", "w1", "2025-01-03", 300, "Cash", ""⟩])) :=
  ledger_last_eq_getWorkerBalance _ "w1" _ _ _ (by decide)
    (by simp [ledgerTransactions, annotateBalance, entryTrans, payTrans,
      List.insertionSort, List.orderedInsert])

/-- C2 counterexample to the claim as stated: for a worker stored under the
empty-string id, the ledger's last `balanceAfter` is 1500 while
`getWorkerBalance` returns 0 (the `!workerId` guard), so the invariant
fails for that worker. -/
theorem ledger_claim_cex :
    lastBalanceAfter (ledgerTransactions (fun s => (s.length : ℤ)) ""
        [⟨"", "Ghost", "", "", 1000, true⟩]
        [⟨"e1", "", "2025-01-01", "P", "A", "c1", "s1", 500, "", 0, 0, ""⟩] [])
      = some 1500
    ∧ getWorkerBalance "" (some [⟨"", "Ghost", "", "", 1000, true⟩])
        (some [⟨"e1", "", "2025-01-01", "P", "A", "c1", "s1", 500, "", 0, 0, ""⟩])
        (some []) = 0 := by
  constructor
  · simp [ledgerTransactions, annotateBalance, lastBalanceAfter, transDelta,
      entryTrans, List.insertionSort, List.orderedInsert]
    norm_num
  · rfl

theorem validateEntryRest_error_cases (e : Entry) (st : ValState) :
    validateEntryRest e st = VRes.ok
    ∨ ∃ m, validateEntryRest e st = VRes.err m ∧ m ∈ restMsgList := by
  simp only [validateEntryRest]
  split
  · split
    · next m heq =>
        refine Or.inr ⟨m, rfl, ?_⟩
        repeat' split at heq <;> try simp_all [restMsgList]
    · next heq =>
        split
        · next m2 heq2 =>
            refine Or.inr ⟨m2, rfl, ?_⟩
            repeat' split at heq2 <;> try simp_all [restMsgList]
        · next heq2 =>
            split
            · exact Or.inr ⟨_, rfl, by decide⟩
            · exact Or.inl rfl
  · exact Or.inl rfl

theorem validateEntryRest_ne (e : Entry) (st : ValState) (msg : String)
    (hmsg : msg ∉ restMsgList) : validateEntryRest e st ≠ VRes.err msg := by
  rcases validateEntryRest_error_cases e st with h | ⟨m, hm, hmem⟩
  · rw [h]
    intro hc
    simp [VRes.ok, VRes.err] at hc
  · rw [hm]
    intro hc
    have hEq : m = msg := by simpa [VRes.err] using hc
    exact hmsg (hEq ▸ hmem)

/-- C8 (amended): entry validation rejects when `workerId` is *missing*
(falsy) — not when it is merely unknown to the workers collection, which
`validateEntry` never consults — rejects when `date` is missing, and
rejects when `status` is not one of `P`, `A`, `H`. -/
theorem validateEntry_field_checks (e : Entry) (st : ValState) :
    (e.workerId = "" → validateEntry e st = VRes.err "Worker is required")
    ∧ (e.workerId ≠ "" → e.date = "" →
        validateEntry e st = VRes.err "Date is required")
    ∧ (e.workerId ≠ "" → e.date ≠ "" →
        e.status ∉ (["P", "A", "H"] : List String) →
        validateEntry e st = VRes.err "Invalid attendance status") := by
  refine ⟨fun h1 => ?_, fun h1 h2 => ?_, fun h1 h2 h3 => ?_⟩ <;>
    simp [validateEntry, *]

/-- C8 witness: the three rejections at concrete candidates. -/
theorem validateEntry_field_checks_witness :
    validateEntry ⟨"e1", "", "2025-01-01", "P", "A", "c1", "s1", 100, "", 0, 0, ""⟩
        ⟨some [], some []⟩ = VRes.err "Worker is required"
    ∧ validateEntry ⟨"e2", "w1", "", "P", "A", "c1", "s1", 100, "", 0, 0, ""⟩
        ⟨some [], some []⟩ = VRes.err "Date is required"
    ∧ validateEntry ⟨"e3", "w1", "2025-01-01", "X", "A", "c1", "s1", 100, "", 0, 0, ""⟩
        ⟨some [], some []⟩ = VRes.err "Invalid attendance status" :=
  ⟨(validateEntry_field_checks _ _).1 rfl,
   (validateEntry_field_checks _ _).2.1 (by decide) rfl,
   (validateEntry_field_checks _ _).2.2 (by decide) (by decide) (by decide)⟩

/-- C8 counterexample to the claim as stated: a candidate whose `workerId`
(`"w9"`) is not the id of any Worker in the store is *accepted* —
`validateEntry` never reads the workers collection, it only tests
`!entry.workerId`.  The conjunct on the right exhibits a workers
collection in which `"w9"` is unknown. -/
theorem validateEntry_unknown_worker_cex :
    validateEntry ⟨"e9", "w9", "2025-01-01", "A", "", "", "", 0, "", 0, 0, ""⟩
        ⟨some [], some []⟩ = VRes.ok
    ∧ ([(⟨"w1", "Ravi", "", "", 1000, true⟩ : Worker)].all
        (fun w => w.id != "w9")) = true := by
  exact ⟨rfl, rfl⟩

/-- C9: a non-Absent candidate with a missing (empty) `workType` is
validated exactly as if `workType` were `'A'` — the backward-compatibility
default `entry.workType === 'A' || !entry.workType` makes the two
indistinguishable for the whole of `validateEntry` (the statement also
covers Absent candidates; it needs no status hypothesis). -/
theorem validateEntry_workType_default (e : Entry) (st : ValState)
    (h : e.workType = "") :
    validateEntry e st = validateEntry { e with workType := "A" } st := by
  simp only [validateEntry, validateEntryTail, validateEntryRest, h]
  simp

/-- C9 witness: a concrete missing-`workType` candidate validates exactly
as its `workType := 'A'` twin. -/
theorem validateEntry_workType_default_witness :
    validateEntry ⟨"e1", "w1", "2025-01-01", "P", "", "c1", "s1", 100, "", 0, 0, ""⟩
        ⟨some [], some [⟨"s1", "Digging", some ["c1"], none⟩]⟩
      = validateEntry ⟨"e1", "w1", "2025-01-01", "P", "A", "c1", "s1", 100, "", 0, 0, ""⟩
        ⟨some [], some [⟨"s1", "Digging", some ["c1"], none⟩]⟩ :=
  validateEntry_workType_default _ _ rfl

/-- C3 (amended): on a store satisfying the at-most-one-entry-per
`(workerId, date)` invariant, and for a candidate that passes the
preceding field checks (worker present, date present, valid status),
validation rejects with the duplicate-attendance reason exactly when some
stored entry has the candidate's `(workerId, date)` and a different `id`;
and whenever every stored entry with that pair shares the candidate's
`id` (the edit-in-place case), the result is never the
duplicate-attendance rejection.  (The amendment: the claim as stated
promises the `DuplicateAttendance` reason even for candidates that fail an
earlier check — those are rejected with the earlier check's reason
instead.) -/
theorem validateEntry_duplicate_check (c : Entry) (st : ValState) :
    ((∀ e1 ∈ st.entries.getD [], ∀ e2 ∈ st.entries.getD [],
        e1.workerId = e2.workerId → e1.date = e2.date → e1 = e2) →
      c.workerId ≠ "" → c.date ≠ "" →
      c.status ∈ (["P", "A", "H"] : List String) →
      (∃ e' ∈ st.entries.getD [],
        e'.workerId = c.workerId ∧ e'.date = c.date ∧ e'.id ≠ c.id) →
      validateEntry c st
        = VRes.err "Attendance already recorded for this worker and date")
    ∧ ((∀ e' ∈ st.entries.getD [],
          e'.workerId = c.workerId → e'.date = c.date → e'.id = c.id) →
        validateEntry c st
          ≠ VRes.err "Attendance already recorded for this worker and date") := by
  constructor
  · intro huniq h1 h2 h3 hdup
    obtain ⟨e', he'mem, hw, hd, hid⟩ := hdup
    have hex : ∃ x, x ∈ st.entries.getD []
        ∧ (fun e => e.workerId == c.workerId && e.date == c.date) x = true :=
      ⟨e', he'mem, by simp [hw, hd]⟩
    obtain ⟨e0, hfind⟩ := Option.isSome_iff_exists.mp (List.find?_isSome.mpr hex)
    have hmem0 := List.mem_of_find?_eq_some hfind
    have hp0 := List.find?_some hfind
    simp only [Bool.and_eq_true, beq_iff_eq] at hp0
    have he0 : e0 = e' := huniq e0 hmem0 e' he'mem (by rw [hp0.1, hw]) (by rw [hp0.2, hd])
    unfold validateEntry validateEntryTail
    simp [h1, h2, h3, hfind, he0, hid]
  · intro hsame
    unfold validateEntry
    split_ifs with g1 g2 g3
    · decide
    · decide
    · unfold validateEntryTail
      cases hfind : (st.entries.getD []).find?
          (fun e => e.workerId == c.workerId && e.date == c.date) with
      | none =>
        exact validateEntryRest_ne c st _ (by decide)
      | some e0 =>
        have hmem0 := List.mem_of_find?_eq_some hfind
        have hp0 := List.find?_some hfind
        simp only [Bool.and_eq_true, beq_iff_eq] at hp0
        have hsameid : e0.id = c.id := hsame e0 hmem0 hp0.1 hp0.2
        simp only [hsameid, bne_self_eq_false, Bool.false_eq_true, if_false,
          ite_false]
        exact validateEntryRest_ne c st _ (by decide)
    · decide

/-- C3 witness: (a) a valid Present candidate for a date already recorded
for the worker under a different entry id is rejected with the duplicate
message; (b) re-validating the same entry id for that date is not a
duplicate rejection. -/
theorem validateEntry_duplicate_check_witness :
    validateEntry ⟨"e1", "w1", "2025-01-01", "P", "A", "c1", "s1", 100, "", 0, 0, ""⟩
        ⟨some [⟨"e2", "w1", "2025-01-01", "A", "", "", "", 0, "", 0, 0, ""⟩], some []⟩
      = VRes.err "Attendance already recorded for this worker and date"
    ∧ validateEntry ⟨"e1", "w1", "2025-01-01", "P", "A", "c1", "s1", 100, "", 0, 0, ""⟩
        ⟨some [⟨"e1", "w1", "2025-01-01", "A", "", "", "", 0, "", 0, 0, ""⟩], some []⟩
      ≠ VRes.err "Attendance already recorded for this worker and date" :=
  ⟨(validateEntry_duplicate_check _ _).1
      (by intro e1 hm1 e2 hm2 _ _; simp at hm1 hm2; rw [hm1, hm2])
      (by decide) (by decide) (by decide)
      ⟨⟨"e2", "w1", "2025-01-01", "A", "", "", "", 0, "", 0, 0, ""⟩,
        by simp, rfl, rfl, by decide⟩,
   (validateEntry_duplicate_check _ _).2
      (by intro e' hm _ _; simp at hm; rw [hm])⟩

/-- C3 counterexample to the claim as stated: the store holds a
conflicting entry (`e2`, same worker and date, different id), but the
candidate's status is invalid, so validation rejects with
`"Invalid attendance status"` — not with the `DuplicateAttendance`
reason the claim promises. -/
theorem validateEntry_duplicate_claim_cex :
    validateEntry ⟨"e1", "w1", "2025-01-01", "X", "", "", "", 0, "", 0, 0, ""⟩
        ⟨some [⟨"e2", "w1", "2025-01-01", "A", "", "", "", 0, "", 0, 0, ""⟩], some []⟩
      = VRes.err "Invalid attendance status"
    ∧ VRes.err "Invalid attendance status"
        ≠ VRes.err "Attendance already recorded for this worker and date"
    ∧ ([(⟨"e2", "w1", "2025-01-01", "A", "", "", "", 0, "", 0, 0, ""⟩ : Entry)].any
        (fun e' => e'.workerId == "w1" && e'.date == "2025-01-01" && e'.id != "e1"))
      = true :=
  ⟨rfl, by decide, rfl⟩

theorem checkRequiredFields_valid (a : JSVal) (l : List String) :
    (checkRequiredFields a l).valid = l.all (fun f => (a.getField f).isArr) := by
  induction l with
  | nil => rfl
  | cons f rest ih =>
    unfold checkRequiredFields
    by_cases h : (JSVal.getField a f).isArr = true
    · simp [h, ih]
    · simp [h, VRes.err]

/-- C4 (amended): `validateBackupData` accepts a document exactly when it
is a truthy value of object type whose `version` and `appData` fields are
*truthy* (not merely present — a present-but-falsy `version` such as `0`
is rejected) and whose five collections are arrays; and whenever
validation fails, the import-then-restore pipeline returns failure with
the live store untouched and an empty event trace — in particular no
safety snapshot is written. -/
theorem backup_validate_shape_and_atomicity :
    (∀ b, (validateBackupData b).valid = codeBackupShape b)
    ∧ (∀ failSnapshot ts doc store,
        (validateBackupData doc).valid = false →
        importAndRestore failSnapshot ts doc store = (false, store, [])) := by
  constructor
  · intro b
    unfold validateBackupData codeBackupShape
    by_cases hA : b.truthy = true
    · by_cases hB : b.typeofObject = true
      · by_cases hv : (b.getField "version").truthy = true
        · by_cases ha : (b.getField "appData").truthy = true
          · simp [hA, hB, hv, ha, checkRequiredFields_valid]
          · simp [hA, hB, hv, ha, VRes.err]
        · simp [hA, hB, hv, VRes.err]
      · simp [hA, hB, VRes.err]
    · simp [hA, VRes.err]
  · intro failSnapshot ts doc store h
    unfold importAndRestore
    rw [h]
    simp

/-- C4 witness: the amended acceptance equivalence at a malformed concrete
document, and the pipeline leaving a concrete store untouched (no events,
hence no snapshot) when validation fails. -/
theorem backup_validate_shape_and_atomicity_witness :
    (validateBackupData (JSVal.obj [("version", JSVal.num 0)])).valid
      = codeBackupShape (JSVal.obj [("version", JSVal.num 0)])
    ∧ importAndRestore false "20250101_000000" (JSVal.obj [])
        [("globalStore", Blob.raw "old")]
      = (false, [("globalStore", Blob.raw "old")], []) :=
  ⟨backup_validate_shape_and_atomicity.1 _,
   backup_validate_shape_and_atomicity.2 false "20250101_000000" _ _ rfl⟩

/-- C4 counterexample to the claim as stated: a document with `version`
*present* (value `0`) and all five collections present as arrays satisfies
the claim's presence-based shape, yet `validateBackupData` rejects it
(`!backupData.version` is a truthiness test, so `Backup version not found`
fires). -/
theorem validateBackupData_claim_cex :
    claimBackupShape
        (JSVal.obj [("version", JSVal.num 0),
          ("appData", JSVal.obj [("workers", JSVal.arr []),
            ("categories", JSVal.arr []), ("subcategories", JSVal.arr []),
            ("entries", JSVal.arr []), ("payments", JSVal.arr [])])]) = true
    ∧ (validateBackupData
        (JSVal.obj [("version", JSVal.num 0),
          ("appData", JSVal.obj [("workers", JSVal.arr []),
            ("categories", JSVal.arr []), ("subcategories", JSVal.arr []),
            ("entries", JSVal.arr []), ("payments", JSVal.arr [])])])).valid
      = false :=
  ⟨rfl, rfl⟩

/-- C10: in every execution of `restoreBackup`, (a) when the primary key
holds data, the safety snapshot is written to the timestamped key strictly
before the replacing step (see the event trace), and a snapshot-write
failure aborts with the store untouched and nothing replaced; (b) when the
primary key is empty, the restore replaces the store without writing any
safety snapshot. -/
theorem restoreBackup_snapshot_protocol :
    (∀ failSnapshot ts d store b,
      storageGet store "globalStore" = some b →
      (failSnapshot = true →
        restoreBackup failSnapshot ts d store = (false, store, []))
      ∧ (failSnapshot = false →
        restoreBackup failSnapshot ts d store
          = (true,
             storageSet (storageSet store ("globalStore_pre_restore_" ++ ts) b)
               "globalStore" (.rst (buildRestoredState d)),
             [.snapshotWrite ("globalStore_pre_restore_" ++ ts),
              .dispatchSetAll, .replaceWrite])))
    ∧ (∀ failSnapshot ts d store,
        storageGet store "globalStore" = none →
        restoreBackup failSnapshot ts d store
          = (true, storageSet store "globalStore" (.rst (buildRestoredState d)),
             [.dispatchSetAll, .replaceWrite])) := by
  constructor
  · intro failSnapshot ts d store b hb
    constructor
    · intro hf
      subst hf
      unfold restoreBackup
      rw [hb]
      rfl
    · intro hf
      subst hf
      unfold restoreBackup
      rw [hb]
      rfl
  · intro failSnapshot ts d store h
    unfold restoreBackup
    rw [h]

/-- C10 witness: both protocol branches at concrete stores — abort on
snapshot failure, snapshot-then-replace on success, and replace without a
snapshot when the primary key is empty. -/
theorem restoreBackup_snapshot_protocol_witness :
    restoreBackup true "t1" (JSVal.obj []) [("globalStore", Blob.raw "old")]
      = (false, [("globalStore", Blob.raw "old")], [])
    ∧ restoreBackup false "t1" (JSVal.obj []) [("globalStore", Blob.raw "old")]
      = (true,
         storageSet (storageSet [("globalStore", Blob.raw "old")]
             ("globalStore_pre_restore_" ++ "t1") (Blob.raw "old"))
           "globalStore" (.rst (buildRestoredState (JSVal.obj []))),
         [.snapshotWrite ("globalStore_pre_restore_" ++ "t1"),
          .dispatchSetAll, .replaceWrite])
    ∧ restoreBackup false "t1" (JSVal.obj []) []
      = (true, storageSet [] "globalStore" (.rst (buildRestoredState (JSVal.obj []))),
         [.dispatchSetAll, .replaceWrite]) :=
  ⟨(restoreBackup_snapshot_protocol.1 true "t1" (JSVal.obj [])
      [("globalStore", Blob.raw "old")] (Blob.raw "old") rfl).1 rfl,
   (restoreBackup_snapshot_protocol.1 false "t1" (JSVal.obj [])
      [("globalStore", Blob.raw "old")] (Blob.raw "old") rfl).2 rfl,
   restoreBackup_snapshot_protocol.2 false "t1" (JSVal.obj []) [] rfl⟩

/-- C7: for every persisted blob whose `schemaVersion` is a number at
least 1, the Schema Migration Gate performs no transformation and no
backup write: it loads the blob as-is (only the in-memory
`isInitialized: true` flag is added to the dispatch payload), writes
nothing back, and — since the persisted bytes are untouched — any second
run on the same blob produces the identical outcome, regardless of
timestamp or write-failure circumstances. -/
theorem migrationGate_current_noop (nowStr : String) (writeFails : Bool)
    (blob : JSVal) (q : ℚ)
    (hv : blob.getField "schemaVersion" = JSVal.num q) (h1 : 1 ≤ q) :
    migrationGate nowStr writeFails blob
      = ⟨blob.setField "isInitialized" (JSVal.bool true), none, false⟩
    ∧ ∀ nowStr2 writeFails2,
        migrationGate nowStr2 writeFails2 blob
          = migrationGate nowStr writeFails blob := by
  have hq0 : q ≠ 0 := by
    intro h
    rw [h] at h1
    norm_num at h1
  have key : ∀ n w, migrationGate n w blob
      = ⟨blob.setField "isInitialized" (JSVal.bool true), none, false⟩ := by
    intro n w
    unfold migrationGate
    simp [hv, jsOr, JSVal.truthy, toNumberJS, hq0, h1]
  exact ⟨key nowStr writeFails,
    fun n2 w2 => (key n2 w2).trans (key nowStr writeFails).symm⟩

/-- C7 witness: a concrete already-migrated blob (`schemaVersion: 1`) is
loaded as-is with nothing written and no backup. -/
theorem migrationGate_current_noop_witness :
    migrationGate "t0" false
        (JSVal.obj [("schemaVersion", JSVal.num 1), ("workers", JSVal.arr [])])
      = ⟨(JSVal.obj [("schemaVersion", JSVal.num 1),
            ("workers", JSVal.arr [])]).setField "isInitialized" (JSVal.bool true),
         none, false⟩ :=
  (migrationGate_current_noop "t0" false
    (JSVal.obj [("schemaVersion", JSVal.num 1), ("workers", JSVal.arr [])])
    1 rfl (by norm_num)).1

/-- C5: the `DELETE_WORKER` reducer only filters the workers collection.
At the concrete failing input below (one worker, and an entry, a payment
and an outbox message all referencing it), deleting the worker removes the
worker but leaves every referencing record in the store untouched; the
reducer's type carries no orphan report of any kind, so the orphans are
silent — contradicting both the claim and the source's own delete dialog
("This will permanently delete the worker and all related data"). -/
theorem deleteWorker_leaves_orphans :
    (reducer
        ⟨[⟨"w1", "Ravi", "", "", 1000, true⟩], [], [],
         [⟨"e1", "w1", "2025-01-01", "P", "A", "c1", "s1", 500, "", 0, 0, ""⟩],
         [⟨"p1", "w1", "2025-01-02", 300, "Cash", ""⟩],
         [⟨"m1", "w1", "balance msg", "pending"⟩], []⟩
        (.deleteWorker "w1")).workers = []
    ∧ (reducer
        ⟨[⟨"w1", "Ravi", "", "", 1000, true⟩], [], [],
         [⟨"e1", "w1", "2025-01-01", "P", "A", "c1", "s1", 500, "", 0, 0, ""⟩],
         [⟨"p1", "w1", "2025-01-02", 300, "Cash", ""⟩],
         [⟨"m1", "w1", "balance msg", "pending"⟩], []⟩
        (.deleteWorker "w1")).entries
      = [⟨"e1", "w1", "2025-01-01", "P", "A", "c1", "s1", 500, "", 0, 0, ""⟩]
    ∧ (reducer
        ⟨[⟨"w1", "Ravi", "", "", 1000, true⟩], [], [],
         [⟨"e1", "w1", "2025-01-01", "P", "A", "c1", "s1", 500, "", 0, 0, ""⟩],
         [⟨"p1", "w1", "2025-01-02", 300, "Cash", ""⟩],
         [⟨"m1", "w1", "balance msg", "pending"⟩], []⟩
        (.deleteWorker "w1")).payments
      = [⟨"p1", "w1", "2025-01-02", 300, "Cash", ""⟩]
    ∧ (reducer
        ⟨[⟨"w1", "Ravi", "", "", 1000, true⟩], [], [],
         [⟨"e1", "w1", "2025-01-01", "P", "A", "c1", "s1", 500, "", 0, 0, ""⟩],
         [⟨"p1", "w1", "2025-01-02", 300, "Cash", ""⟩],
         [⟨"m1", "w1", "balance msg", "pending"⟩], []⟩
        (.deleteWorker "w1")).deferredMessages
      = [⟨"m1", "w1", "balance msg", "pending"⟩] :=
  ⟨rfl, rfl, rfl, rfl⟩

theorem deleteCategorySubUpdate_id (cid : String) (x : Subcategory) :
    (deleteCategorySubUpdate cid x).id = x.id := by
  unfold deleteCategorySubUpdate
  repeat' split
  all_goals rfl

/-- C6 (amended): one `DELETE_CATEGORY` reducer call atomically (a)
removes the category, (b) removes the deleted id from every surviving
subcategory's `categoryIds` array, (c) deletes every subcategory whose
`categoryIds` array becomes empty *provided its legacy scalar `categoryId`
field is not truthy* (assuming distinct subcategory ids), and (d) keeps a
subcategory that still has other associations, with exactly the remaining
ids.  (The amendment: a subcategory carrying a truthy legacy `categoryId`
survives the cascade even with an emptied `categoryIds` array.) -/
theorem deleteCategory_cascade (st : StoreState) (cid : String) :
    ((reducer st (.deleteCategory cid)).categories
        = st.categories.filter (fun c => c.id != cid))
    ∧ (∀ s' ∈ (reducer st (.deleteCategory cid)).subcategories,
        cid ∉ s'.categoryIds.getD [])
    ∧ ((st.subcategories.map Subcategory.id).Nodup →
        ∀ s ∈ st.subcategories, ∀ l, s.categoryIds = some l →
          l.filter (fun i => i != cid) = [] →
          legacyTruthy s.categoryId = false →
          ∀ s' ∈ (reducer st (.deleteCategory cid)).subcategories,
            s'.id ≠ s.id)
    ∧ (∀ s ∈ st.subcategories, ∀ l, s.categoryIds = some l →
        l.filter (fun i => i != cid) ≠ [] →
        { s with categoryIds := some (l.filter (fun i => i != cid)) }
          ∈ (reducer st (.deleteCategory cid)).subcategories) := by
  refine ⟨rfl, ?_, ?_, ?_⟩
  · intro s' hs'
    have hs'2 : s' ∈ (st.subcategories.map (deleteCategorySubUpdate cid)).filter
        deleteCategorySubKeep := hs'
    obtain ⟨s0, hs0, rfl⟩ := List.mem_map.mp (List.mem_of_mem_filter hs'2)
    unfold deleteCategorySubUpdate
    cases h : s0.categoryIds with
    | some ids => simp [h]
    | none =>
      cases h2 : s0.categoryId with
      | some c =>
        by_cases h3 : (c != "" && c == cid) = true
        · simp [h, h2, h3]
        · simp [h, h2, h3]
      | none => simp [h, h2]
  · intro hnodup s hs l hl hlf hlegacy s' hs' heq
    have hs'2 : s' ∈ (st.subcategories.map (deleteCategorySubUpdate cid)).filter
        deleteCategorySubKeep := hs'
    have hkeep : deleteCategorySubKeep s' = true := (List.mem_filter.mp hs'2).2
    obtain ⟨s0, hs0, hup⟩ := List.mem_map.mp (List.mem_of_mem_filter hs'2)
    have hid : s0.id = s.id := by
      rw [← hup, deleteCategorySubUpdate_id] at heq
      exact heq
    have hs0s : s0 = s := List.inj_on_of_nodup_map hnodup hs0 hs hid
    subst hs0s
    have hupdate : deleteCategorySubUpdate cid s0
        = { s0 with categoryIds := some (l.filter (fun i => i != cid)) } := by
      unfold deleteCategorySubUpdate
      rw [hl]
    rw [hupdate] at hup
    rw [← hup] at hkeep
    rw [hlf] at hkeep
    unfold deleteCategorySubKeep at hkeep
    simp [hlegacy] at hkeep
  · intro s hs l hl hne
    have hupdate : deleteCategorySubUpdate cid s
        = { s with categoryIds := some (l.filter (fun i => i != cid)) } := by
      unfold deleteCategorySubUpdate
      rw [hl]
    show _ ∈ (st.subcategories.map (deleteCategorySubUpdate cid)).filter
      deleteCategorySubKeep
    refine List.mem_filter.mpr ⟨?_, ?_⟩
    · exact hupdate ▸ List.mem_map_of_mem (deleteCategorySubUpdate cid) hs
    · unfold deleteCategorySubKeep
      simp [List.length_pos, hne]

/-- C6 witness: deleting `c1` from a store with a subcategory exclusively
in `c1` and a subcategory shared between `c1` and `c2` removes the
category, removes the exclusive subcategory entirely, and keeps the shared
one with only the `c2` association. -/
theorem deleteCategory_cascade_witness :
    ((reducer ⟨[], [⟨"c1", "Cat1"⟩, ⟨"c2", "Cat2"⟩],
        [⟨"s1", "Solo", some ["c1"], none⟩, ⟨"s2", "Shared", some ["c1", "c2"], none⟩],
        [], [], [], []⟩ (.deleteCategory "c1")).categories
      = [⟨"c2", "Cat2"⟩])
    ∧ (∀ s' ∈ (reducer ⟨[], [⟨"c1", "Cat1"⟩, ⟨"c2", "Cat2"⟩],
        [⟨"s1", "Solo", some ["c1"], none⟩, ⟨"s2", "Shared", some ["c1", "c2"], none⟩],
        [], [], [], []⟩ (.deleteCategory "c1")).subcategories,
        s'.id ≠ "s1")
    ∧ (⟨"s2", "Shared", some ["c2"], none⟩ : Subcategory)
        ∈ (reducer ⟨[], [⟨"c1", "Cat1"⟩, ⟨"c2", "Cat2"⟩],
          [⟨"s1", "Solo", some ["c1"], none⟩, ⟨"s2", "Shared", some ["c1", "c2"], none⟩],
          [], [], [], []⟩ (.deleteCategory "c1")).subcategories := by
  refine ⟨?_, ?_, ?_⟩
  · exact (deleteCategory_cascade _ "c1").1
  · exact (deleteCategory_cascade _ "c1").2.2.1 (by decide)
      ⟨"s1", "Solo", some ["c1"], none⟩ (by simp) ["c1"] rfl rfl rfl
  · exact (deleteCategory_cascade _ "c1").2.2.2
      ⟨"s2", "Shared", some ["c1", "c2"], none⟩ (by simp) ["c1", "c2"] rfl
      (by decide)

/-- C6 counterexample to the claim as stated: a subcategory whose
`categoryIds` array becomes empty but which carries a truthy legacy
`categoryId` (`"c9"`) *survives* the cascade with `categoryIds = []`,
whereas the claim says every subcategory whose `categoryIds` set becomes
empty is deleted. -/
theorem deleteCategory_claim_cex :
    (reducer ⟨[], [⟨"c1", "Cat1"⟩], [⟨"s3", "Mixed", some ["c1"], some "c9"⟩],
        [], [], [], []⟩ (.deleteCategory "c1")).subcategories
      = [⟨"s3", "Mixed", some [], some "c9"⟩] := rfl
